import Mathlib

/-!
Shallow embedding of `textgrid.py` from the `textgrid-tools` repository.

The source is a single class `TextGrid` that
* parses Praat TextGrid text line by line with `re.match` against a fixed
  list of patterns (`_parse_textgrid`),
* serializes the flattened interval table back to TextGrid text
  (`to_textgrid`),
* dispatches on the file extension computed by `os.path.splitext`
  (`__init__`, `to_csv`, `to_textgrid`).

Modelling conventions:
* Lines are lists of characters; `re.match` (anchored prefix match) of each
  concrete pattern is hand-compiled into a total matcher on `List Char`.
  The patterns use single `\s` (one whitespace char), `\s+` (indentation),
  `\d+`, `\d*\.*\d*`, `(\w+)"`, and greedy `(.*)` up to the last closing
  quote / angle bracket; each matcher reproduces exactly that behaviour.
* Python floats are modelled exactly: every float this program creates is
  `float(s)` of a decimal digit string, so values are represented as
  normalized exact decimals `mant / 10 ^ frac` (`PyFloat`), on which
  CPython's `float`/`str` round-trip and equality are exact.  The spec
  (section 1) explicitly delegates float-formatting nuance, requiring only
  round-trip stability on typical values.
* Python exceptions become an error type `PyErr`; the source raises
  `ValueError` everywhere, but at four distinct sites with distinct
  messages (the spec names them UnsupportedFormatError,
  MismatchedOperationError, StructureError), plus the `TypeError` that
  `tier_idx >= None` raises; we keep them apart by constructor.
* File input/output is modelled by passing the file text directly
  (spec section 5: whole-file synchronous reads/writes).
* Line 126 of the source (`self.tier_list = list(set(...))`) builds a set
  whose iteration order CPython does not specify; no claim mentions
  `tier_list`, so the field is not modelled.
-/

set_option maxRecDepth 40000

namespace TextGridTools

/-! ### Character classes (`\s`, `\d`, `\w` of the Python `re` module) -/

def isSpaceChar (c : Char) : Bool :=
  c = ' ' || c = '\t' || c = '\n' || c = '\r' || c = '\x0b' || c = '\x0c'

def isDigitChar (c : Char) : Bool :=
  '0' ≤ c && c ≤ '9'

def isWordChar (c : Char) : Bool :=
  ('a' ≤ c && c ≤ 'z') || ('A' ≤ c && c ≤ 'Z') || isDigitChar c || c = '_'

/-! ### Prefix-matching primitives -/

/-- Match a literal character sequence at the head of the input,
returning the rest. -/
def expectLit : List Char → List Char → Option (List Char)
  | [], cs => some cs
  | _ :: _, [] => none
  | l :: ls, c :: cs => if c = l then expectLit ls cs else none

/-- Match exactly one whitespace character (`\s`). -/
def expectWS1 : List Char → Option (List Char)
  | [] => none
  | c :: cs => if isSpaceChar c then some cs else none

/-- Match `\s+` at the start of the line (the indentation of tier/interval
lines); greedy, which coincides with the regex because every following
literal starts with a non-whitespace character. -/
def dropIndent (cs : List Char) : Option (List Char) :=
  match cs with
  | [] => none
  | c :: _ => if isSpaceChar c then some (cs.dropWhile isSpaceChar) else none

/-- Value of a digit string (`int(...)` on a `\d+` capture). -/
def digitsToNat (ds : List Char) : Nat :=
  ds.foldl (fun a c => a * 10 + (c.toNat - '0'.toNat)) 0

/-- Capture `(\d+)`: one or more digits, greedy, rest returned. -/
def captureNat (cs : List Char) : Option (Nat × List Char) :=
  let ds := cs.takeWhile isDigitChar
  if ds.isEmpty then none else some (digitsToNat ds, cs.dropWhile isDigitChar)

/-- Capture `(\w+)\"`: a nonempty word immediately followed by a quote. -/
def captureWordQuote (cs : List Char) : Option String :=
  let w := cs.takeWhile isWordChar
  if w.isEmpty then none
  else
    match cs.dropWhile isWordChar with
    | '"' :: _ => some (String.mk w)
    | _ => none

/-- Capture greedy `(.*)` up to the LAST occurrence of `g` in the line
(regex backtracking semantics of `\"(.*)\"` and `<(.*)>`). -/
def captureToLast (g : Char) (cs : List Char) : Option String :=
  match cs.reverse.dropWhile (fun c => c ≠ g) with
  | [] => none
  | _ :: rest => some (String.mk rest.reverse)

/-- Exact model of a CPython float produced by `float(...)` on a decimal
digit string: the value `mant / 10 ^ frac`, kept normalized (`mant` not
divisible by 10 unless `frac = 0`), so that structural equality is value
equality and `str` is the shortest decimal form. -/
structure PyFloat where
  mant : Int
  frac : Nat
deriving DecidableEq

/-- Strip trailing zeros of the mantissa (fuel = the exponent). -/
def pfNorm (m : Int) : Nat → Int × Nat
  | 0 => (m, 0)
  | e + 1 => if m % 10 = 0 then pfNorm (m / 10) e else (m, e + 1)

/-- The normalized decimal `m / 10 ^ e`. -/
def PyFloat.make (m : Int) (e : Nat) : PyFloat :=
  ⟨(pfNorm m e).1, (pfNorm m e).2⟩

/-- Capture `(\d+\.\d+)` converted by `float(...)`: the top-level
`xmin`/`xmax` patterns require an explicit fractional part. -/
def captureFloatStrict (cs : List Char) : Option PyFloat :=
  let ip := cs.takeWhile isDigitChar
  if ip.isEmpty then none
  else
    match cs.dropWhile isDigitChar with
    | '.' :: r2 =>
      let fp := r2.takeWhile isDigitChar
      if fp.isEmpty then none
      else some (PyFloat.make (digitsToNat (ip ++ fp)) fp.length)
    | _ => none

/-- Capture `(\d*\.*\d*)`: all parts optional, so the match always
succeeds once the prefix matched; the captured characters are returned
(they may be empty or malformed, and `float(...)` is applied later). -/
def captureFloatLoose (cs : List Char) : List Char :=
  let d1 := cs.takeWhile isDigitChar
  let r1 := cs.dropWhile isDigitChar
  let dots := r1.takeWhile (fun c => c = '.')
  let r2 := r1.dropWhile (fun c => c = '.')
  d1 ++ dots ++ r2.takeWhile isDigitChar

/-- CPython `float(...)` on the characters a `(\d*\.*\d*)` capture can
produce: digits, optionally one dot between digit groups; empty or
multi-dot input raises `ValueError` (modelled as `none`). -/
def pyFloatOfChars (cs : List Char) : Option PyFloat :=
  let ip := cs.takeWhile isDigitChar
  match cs.dropWhile isDigitChar with
  | [] => if ip.isEmpty then none else some (PyFloat.make (digitsToNat ip) 0)
  | '.' :: fp =>
    if fp.all isDigitChar && !(ip.isEmpty && fp.isEmpty) then
      some (PyFloat.make (digitsToNat (ip ++ fp)) fp.length)
    else none
  | _ => none

/-! ### The twelve line patterns of `_parse_textgrid` -/

/-- `re.match(r"File\stype\s=\s\"(\w+)\"", line)` -/
def matchFileType (cs : List Char) : Option String :=
  (expectLit ['F', 'i', 'l', 'e'] cs).bind fun r =>
  (expectWS1 r).bind fun r =>
  (expectLit ['t', 'y', 'p', 'e'] r).bind fun r =>
  (expectWS1 r).bind fun r =>
  (expectLit ['='] r).bind fun r =>
  (expectWS1 r).bind fun r =>
  (expectLit ['"'] r).bind fun r =>
  captureWordQuote r

/-- `re.match(r"Object\sclass\s=\s\"(\w+)\"", line)` -/
def matchObjectClass (cs : List Char) : Option String :=
  (expectLit ['O', 'b', 'j', 'e', 'c', 't'] cs).bind fun r =>
  (expectWS1 r).bind fun r =>
  (expectLit ['c', 'l', 'a', 's', 's'] r).bind fun r =>
  (expectWS1 r).bind fun r =>
  (expectLit ['='] r).bind fun r =>
  (expectWS1 r).bind fun r =>
  (expectLit ['"'] r).bind fun r =>
  captureWordQuote r

/-- `re.match(r"xmin\s=\s(\d+\.\d+)", line)` (top level, unindented). -/
def matchTopXmin (cs : List Char) : Option PyFloat :=
  (expectLit ['x', 'm', 'i', 'n'] cs).bind fun r =>
  (expectWS1 r).bind fun r =>
  (expectLit ['='] r).bind fun r =>
  (expectWS1 r).bind fun r =>
  captureFloatStrict r

/-- `re.match(r"xmax\s=\s(\d+\.\d+)", line)` (top level, unindented). -/
def matchTopXmax (cs : List Char) : Option PyFloat :=
  (expectLit ['x', 'm', 'a', 'x'] cs).bind fun r =>
  (expectWS1 r).bind fun r =>
  (expectLit ['='] r).bind fun r =>
  (expectWS1 r).bind fun r =>
  captureFloatStrict r

/-- `re.match(r"tiers\?\s<(.*)>", line)` -/
def matchTiers (cs : List Char) : Option String :=
  (expectLit ['t', 'i', 'e', 'r', 's', '?'] cs).bind fun r =>
  (expectWS1 r).bind fun r =>
  (expectLit ['<'] r).bind fun r =>
  captureToLast '>' r

/-- `re.match(r"size\s=\s(\d+)", line)` (top level, unindented). -/
def matchSize (cs : List Char) : Option Nat :=
  (expectLit ['s', 'i', 'z', 'e'] cs).bind fun r =>
  (expectWS1 r).bind fun r =>
  (expectLit ['='] r).bind fun r =>
  (expectWS1 r).bind fun r =>
  (captureNat r).map Prod.fst

/-- `re.match(r"\s+item\s\[(\d+)]", line)` -/
def matchItem (cs : List Char) : Option Nat :=
  (dropIndent cs).bind fun r =>
  (expectLit ['i', 't', 'e', 'm'] r).bind fun r =>
  (expectWS1 r).bind fun r =>
  (expectLit ['['] r).bind fun r =>
  (captureNat r).bind fun nr =>
  match nr.2 with
  | ']' :: _ => some nr.1
  | [] => none
  | _ :: _ => none

/-- `re.match(r"\s+name\s=\s\"(.*)\"", line)` -/
def matchName (cs : List Char) : Option String :=
  (dropIndent cs).bind fun r =>
  (expectLit ['n', 'a', 'm', 'e'] r).bind fun r =>
  (expectWS1 r).bind fun r =>
  (expectLit ['='] r).bind fun r =>
  (expectWS1 r).bind fun r =>
  (expectLit ['"'] r).bind fun r =>
  captureToLast '"' r

/-- `re.match(r"\s+intervals:\ssize\s=\s(\d+)", line)` -/
def matchIntervalsSize (cs : List Char) : Option Nat :=
  (dropIndent cs).bind fun r =>
  (expectLit ['i', 'n', 't', 'e', 'r', 'v', 'a', 'l', 's', ':'] r).bind fun r =>
  (expectWS1 r).bind fun r =>
  (expectLit ['s', 'i', 'z', 'e'] r).bind fun r =>
  (expectWS1 r).bind fun r =>
  (expectLit ['='] r).bind fun r =>
  (expectWS1 r).bind fun r =>
  (captureNat r).map Prod.fst

/-- `re.match(r"\s+xmin\s=\s(\d*\.*\d*)", line)` (interval level). -/
def matchIntXmin (cs : List Char) : Option (List Char) :=
  (dropIndent cs).bind fun r =>
  (expectLit ['x', 'm', 'i', 'n'] r).bind fun r =>
  (expectWS1 r).bind fun r =>
  (expectLit ['='] r).bind fun r =>
  (expectWS1 r).bind fun r =>
  some (captureFloatLoose r)

/-- `re.match(r"\s+xmax\s=\s(\d*\.*\d*)", line)` (interval level). -/
def matchIntXmax (cs : List Char) : Option (List Char) :=
  (dropIndent cs).bind fun r =>
  (expectLit ['x', 'm', 'a', 'x'] r).bind fun r =>
  (expectWS1 r).bind fun r =>
  (expectLit ['='] r).bind fun r =>
  (expectWS1 r).bind fun r =>
  some (captureFloatLoose r)

/-- `re.match(r"\s+text\s=\s\"(.*)\"", line)` -/
def matchText (cs : List Char) : Option String :=
  (dropIndent cs).bind fun r =>
  (expectLit ['t', 'e', 'x', 't'] r).bind fun r =>
  (expectWS1 r).bind fun r =>
  (expectLit ['='] r).bind fun r =>
  (expectWS1 r).bind fun r =>
  (expectLit ['"'] r).bind fun r =>
  captureToLast '"' r

/-! ### The document model (`self.content` and the header fields) -/

/-- The four parallel columns of `self.content`.  Source keys:
`tier` / `start` / `end` / `annotation` (the last two renamed `stop` /
`annot`: `end` is a Lean keyword and the other clashes with lexer
restrictions).  Tier entries are `Option String` because Python appends
the current `tier_name`, which may still be `None`. -/
structure Content where
  tier : List (Option String)
  start : List PyFloat
  stop : List PyFloat
  annot : List String
deriving DecidableEq

/-- The instance attributes of `TextGrid` relevant to parsing, plus the
two local loop variables of `_parse_textgrid` (`tier_header`,
`tier_name`), which persist across lines. -/
structure PyState where
  file_type : Option String := none
  object_class : Option String := none
  xmin : Option PyFloat := none
  xmax : Option PyFloat := none
  tiers : Option String := none
  n_tiers : Option Nat := none
  content : Content := ⟨[], [], [], []⟩
  tier_header : Bool := true
  tier_name : Option String := none
deriving DecidableEq

/-- State at the top of the line loop (line 48 of the source:
`tier_header, tier_name = True, None`). -/
def initState : PyState := {}

/-- The exceptions the source can raise, separated by raise site.
All but `typeErrorCmpNone` are `ValueError` in Python; the spec names
them UnsupportedFormatError (line 36/161/183), MismatchedOperationError
(line 157/181) and StructureError (line 92).  `typeErrorCmpNone` is the
`TypeError` that `tier_idx >= self.n_tiers` raises when `n_tiers` is
still `None` (line 91), and `floatValueError` the `ValueError` of
`float(...)` on a malformed capture (lines 111/117). -/
inductive PyErr where
  | unsupportedFormat (ext : String)
  | mismatchedOperation (ext : String)
  | structureError (expected : Nat) (got : Int)
  | floatValueError
  | typeErrorCmpNone
deriving DecidableEq

/-! ### One iteration of the line loop (lines 51-124), split in source
order into the successive `if match:` blocks. -/

/-- Lines 53-56. -/
def updFileType (st : PyState) (cs : List Char) : PyState :=
  match matchFileType cs with
  | some s => { st with file_type := some s }
  | none => st

/-- Lines 58-61. -/
def updObjectClass (st : PyState) (cs : List Char) : PyState :=
  match matchObjectClass cs with
  | some s => { st with object_class := some s }
  | none => st

/-- Lines 63-66: `if match and tier_name is None`. -/
def updTopXmin (st : PyState) (cs : List Char) : PyState :=
  match matchTopXmin cs with
  | some q => if st.tier_name = none then { st with xmin := some q } else st
  | none => st

/-- Lines 68-71: `if match and tier_name is None`. -/
def updTopXmax (st : PyState) (cs : List Char) : PyState :=
  match matchTopXmax cs with
  | some q => if st.tier_name = none then { st with xmax := some q } else st
  | none => st

/-- Lines 73-76. -/
def updTiers (st : PyState) (cs : List Char) : PyState :=
  match matchTiers cs with
  | some s => { st with tiers := some s }
  | none => st

/-- Lines 78-81. -/
def updSize (st : PyState) (cs : List Char) : PyState :=
  match matchSize cs with
  | some n => { st with n_tiers := some n }
  | none => st

/-- The six header blocks, in source order. -/
def stepHeader (st : PyState) (cs : List Char) : PyState :=
  updSize (updTiers (updTopXmax (updTopXmin (updObjectClass (updFileType st cs) cs) cs) cs) cs) cs

/-- Lines 85-94: `item [N]`.  `tier_idx = N - 1` is Python int
arithmetic, hence `Int` here; comparing against a still-`None`
`self.n_tiers` raises `TypeError`, and `tier_idx >= self.n_tiers`
raises the StructureError `ValueError`. -/
def stepItem (st : PyState) (cs : List Char) : Except PyErr PyState :=
  match matchItem cs with
  | none => .ok st
  | some idx =>
    match st.n_tiers with
    | none => .error .typeErrorCmpNone
    | some nt =>
      if (idx : Int) - 1 ≥ (nt : Int) then
        .error (.structureError nt ((idx : Int) - 1))
      else .ok { st with tier_header := true }

/-- Lines 96-99: `name = "..."`. -/
def stepName (st : PyState) (cs : List Char) : PyState :=
  match matchName cs with
  | some s => { st with tier_name := some s }
  | none => st

/-- Lines 101-106: `intervals: size = N` extends the tier column with
`N` copies of the current tier name and leaves the tier header. -/
def stepIntervalsSize (st : PyState) (cs : List Char) : PyState :=
  match matchIntervalsSize cs with
  | some n =>
    { st with
      content := { st.content with tier := st.content.tier ++ List.replicate n st.tier_name }
      tier_header := false }
  | none => st

/-- Lines 108-112: interval `xmin`, only `if match and not tier_header`. -/
def stepIntXmin (st : PyState) (cs : List Char) : Except PyErr PyState :=
  match matchIntXmin cs with
  | none => .ok st
  | some cap =>
    if st.tier_header then .ok st
    else
      match pyFloatOfChars cap with
      | none => .error .floatValueError
      | some q => .ok { st with content := { st.content with start := st.content.start ++ [q] } }

/-- Lines 114-118: interval `xmax`, only `if match and not tier_header`. -/
def stepIntXmax (st : PyState) (cs : List Char) : Except PyErr PyState :=
  match matchIntXmax cs with
  | none => .ok st
  | some cap =>
    if st.tier_header then .ok st
    else
      match pyFloatOfChars cap with
      | none => .error .floatValueError
      | some q => .ok { st with content := { st.content with stop := st.content.stop ++ [q] } }

/-- Lines 120-124: interval `text`, only `if match and not tier_header`. -/
def stepText (st : PyState) (cs : List Char) : PyState :=
  match matchText cs with
  | some s =>
    if st.tier_header then st
    else { st with content := { st.content with annot := st.content.annot ++ [s] } }
  | none => st

/-- One full iteration of the `for line in text.splitlines()` loop:
every pattern block runs in sequence on the same line (the source has
independent `if`s, not `elif`s). -/
def processLine (st : PyState) (cs : List Char) : Except PyErr PyState :=
  match stepItem (stepHeader st cs) cs with
  | .error e => .error e
  | .ok st =>
    match stepIntXmin (stepIntervalsSize (stepName st cs) cs) cs with
    | .error e => .error e
    | .ok st =>
      match stepIntXmax st cs with
      | .error e => .error e
      | .ok st => .ok (stepText st cs)

/-! ### `text.splitlines()` and the whole parse -/

/-- `str.splitlines()` restricted to the line breaks this format ever
contains (`\n`, `\r\n`, `\r`); no trailing empty line. -/
def splitLinesGo (acc : List Char) : List Char → List (List Char)
  | [] => if acc.isEmpty then [] else [acc.reverse]
  | '\r' :: '\n' :: rest => acc.reverse :: splitLinesGo [] rest
  | '\r' :: rest => acc.reverse :: splitLinesGo [] rest
  | '\n' :: rest => acc.reverse :: splitLinesGo [] rest
  | c :: rest => splitLinesGo (c :: acc) rest

def splitLines (text : String) : List (List Char) :=
  splitLinesGo [] text.toList

/-- Fold the line loop from a given state. -/
def parseLinesFrom (st : PyState) (ls : List (List Char)) : Except PyErr PyState :=
  ls.foldlM processLine st

def parseLines (ls : List (List Char)) : Except PyErr PyState :=
  parseLinesFrom initState ls

/-- `TextGrid._parse_textgrid`, with the file contents passed directly. -/
def parse_textgrid (text : String) : Except PyErr PyState :=
  parseLines (splitLines text)

/-! ### Python string formatting (`f"{...}"`) -/

/-- `f"{x}"` for a value that is `None` or a string. -/
def pyOptStr : Option String → String
  | none => "None"
  | some s => s

/-- Left-pad a digit string with zeros to the given width. -/
def zeroPad (s : String) (k : Nat) : String :=
  String.mk (List.replicate (k - s.length) '0') ++ s

/-- `str(float)` on the exact decimals this program manipulates: the
shortest decimal form with at least one fractional digit
(`str(0.0) = "0.0"`, `str(1.0) = "1.0"`, `str(177.54) = "177.54"`). -/
def floatStr (q : PyFloat) : String :=
  let sign := if q.mant < 0 then "-" else ""
  let n := q.mant.natAbs
  if q.frac = 0 then sign ++ toString n ++ ".0"
  else
    sign ++ toString (n / 10 ^ q.frac) ++ "." ++ zeroPad (toString (n % 10 ^ q.frac)) q.frac

/-- `f"{x}"` for a float-or-`None` attribute. -/
def pyOptFloatStr : Option PyFloat → String
  | none => "None"
  | some q => floatStr q

/-- `f"{x}"` for an int-or-`None` attribute. -/
def pyOptNatStr : Option Nat → String
  | none => "None"
  | some n => toString n

/-! ### `TextGrid.to_textgrid` (lines 185-224): the serializer -/

/-- Line 203: `tier_size = len([el for el in self.content["tier"] if el == tier])` —
counted over the ENTIRE tier column, not the contiguous run. -/
def tier_size (tierCol : List (Option String)) (t : Option String) : Nat :=
  (tierCol.filter (fun el => el == t)).length

/-- Python `zip` over the four content columns (line 197): truncates to
the shortest column. -/
def zip4 {α β γ δ : Type} : List α → List β → List γ → List δ → List (α × β × γ × δ)
  | a :: as, b :: bs, c :: cs, d :: ds => (a, b, c, d) :: zip4 as bs cs ds
  | _, _, _, _ => []

/-- The text `to_textgrid` builds (lines 186-224).  Note the header
emits `xmin {x}` / `xmax {x}` with a space but WITHOUT ` = `, exactly
as in the source (lines 190-191). -/
def to_textgrid_text (st : PyState) : String :=
  let headerText :=
    "File type = \"" ++ pyOptStr st.file_type ++ "\"\n" ++
    "Object class = \"" ++ pyOptStr st.object_class ++ "\"\n" ++
    "\n" ++
    "xmin " ++ pyOptFloatStr st.xmin ++ "\n" ++
    "xmax " ++ pyOptFloatStr st.xmax ++ "\n" ++
    "tiers? <" ++ pyOptStr st.tiers ++ ">\n" ++
    "size = " ++ pyOptNatStr st.n_tiers ++ "\n" ++
    "item[]\n"
  let res := (zip4 st.content.tier st.content.start st.content.stop st.content.annot).foldl
    (fun (acc : String × Option String × Nat × Nat) row =>
      let txt := acc.1
      let last_tier := acc.2.1
      let tier_idx := acc.2.2.1
      let interval_idx := acc.2.2.2
      let tier := row.1
      let start := row.2.1
      let stop := row.2.2.1
      let annot := row.2.2.2
      -- line 200: `if last_tier != tier or last_tier is None:`
      let acc2 : String × Option String × Nat × Nat :=
        if last_tier ≠ tier ∨ last_tier = none then
          let ts := tier_size st.content.tier tier
          (txt ++ "\titem [" ++ toString tier_idx ++ "]\n" ++
           "\t\tclass = \"IntervalTier\"\n" ++
           "\t\tname = \"" ++ pyOptStr tier ++ "\"\n" ++
           "\t\txmin = " ++ pyOptFloatStr st.xmin ++ "\n" ++
           "\t\txmax = " ++ pyOptFloatStr st.xmax ++ "\n" ++
           "\t\tintervals: size = " ++ toString ts ++ "\n",
           tier, tier_idx + 1, 1)
        else (txt, last_tier, tier_idx, interval_idx)
      (acc2.1 ++ "\t\t\tintervals [" ++ toString acc2.2.2.2 ++ "]:\n" ++
       "\t\t\t\txmin = " ++ floatStr start ++ "\n" ++
       "\t\t\t\txmax = " ++ floatStr stop ++ "\n" ++
       "\t\t\t\ttext = \"" ++ annot ++ "\"\n",
       acc2.2.1, acc2.2.2.1, acc2.2.2.2 + 1))
    (headerText, none, 1, 1)
  res.1

/-! ### `os.path.splitext` and the extension dispatch -/

/-- `os.path.splitext`: split off the extension INCLUDING its leading
dot, looking only inside the last path component and ignoring leading
dots of the file name (so `splitext("sample.textgrid") =
("sample", ".textgrid")` and `splitext(".bashrc") = (".bashrc", "")`). -/
def splitext (path : String) : String × String :=
  let cs := path.toList
  let base := (cs.reverse.takeWhile (fun c => c ≠ '/')).reverse
  let dir := cs.take (cs.length - base.length)
  let lead := base.takeWhile (fun c => c = '.')
  let rest := base.drop lead.length
  let extRev := rest.reverse.takeWhile (fun c => c ≠ '.')
  if extRev.length = rest.length then (path, "")
  else
    (String.mk (dir ++ lead ++ rest.take (rest.length - extRev.length - 1)),
     String.mk ('.' :: extRev.reverse))

/-- Which parser `__init__` would invoke. -/
inductive Route where
  | textgridRoute
  | csvRoute
deriving DecidableEq

/-- Lines 30-36 of `__init__`: the extension (as returned by
`os.path.splitext`, dot included) is compared against the dotless
literals `"textgrid"`, `"TextGrid"`, `"csv"`, `"CSV"`. -/
def init_dispatch (file_path : String) : Except PyErr Route :=
  let ext := (splitext file_path).2
  if ext = "textgrid" ∨ ext = "TextGrid" then .ok .textgridRoute
  else if ext = "csv" ∨ ext = "CSV" then .ok .csvRoute
  else .error (.unsupportedFormat ext)

/-- Lines 154-161: the extension check of `to_csv`. -/
def to_csv_check (file_path : String) : Except PyErr Unit :=
  let ext := (splitext file_path).2
  if ext = "textgrid" ∨ ext = "TextGrid" then .error (.mismatchedOperation ext)
  else if ext = "csv" ∨ ext = "CSV" then .ok ()
  else .error (.unsupportedFormat ext)

/-- Lines 176-183: the extension check of `to_textgrid`. -/
def to_textgrid_check (file_path : String) : Except PyErr Unit :=
  let ext := (splitext file_path).2
  if ext = "textgrid" ∨ ext = "TextGrid" then .ok ()
  else if ext = "csv" ∨ ext = "CSV" then .error (.mismatchedOperation ext)
  else .error (.unsupportedFormat ext)

/-- `TextGrid.to_csv`: extension check, then the external tabular writer
receives exactly the four content columns (line 163-164); the written
table is modelled by the columns themselves. -/
def to_csv (st : PyState) (file_path : String) : Except PyErr Content :=
  (to_csv_check file_path).bind fun _ => .ok st.content

/-- `TextGrid.to_textgrid`: extension check, then write the serialized
text (modelled by returning it). -/
def to_textgrid (st : PyState) (file_path : String) : Except PyErr String :=
  (to_textgrid_check file_path).bind fun _ => .ok (to_textgrid_text st)

/-! ### Concrete inputs used by the theorems -/

/-- A `\s+item\s\[(\d+)]` line with the given digit characters:
`"\titem [" ++ ds ++ "]"`. -/
def itemLine (ds : List Char) : List Char :=
  '\t' :: 'i' :: 't' :: 'e' :: 'm' :: ' ' :: '[' :: (ds ++ [']'])

/-- `"\tintervals: size = " ++ ds`. -/
def intervalsSizeLine (ds : List Char) : List Char :=
  '\t' :: 'i' :: 'n' :: 't' :: 'e' :: 'r' :: 'v' :: 'a' :: 'l' :: 's' :: ':' ::
  ' ' :: 's' :: 'i' :: 'z' :: 'e' :: ' ' :: '=' :: ' ' :: ds

/-- `"\txmin = " ++ r` (an interval-level `xmin` line). -/
def intXminLine (r : List Char) : List Char :=
  '\t' :: 'x' :: 'm' :: 'i' :: 'n' :: ' ' :: '=' :: ' ' :: r

/-- `"\txmax = " ++ r` (an interval-level `xmax` line). -/
def intXmaxLine (r : List Char) : List Char :=
  '\t' :: 'x' :: 'm' :: 'a' :: 'x' :: ' ' :: '=' :: ' ' :: r

/-- `"\ttext = \"" ++ s ++ "\""` (an interval-level `text` line). -/
def textLine (s : List Char) : List Char :=
  '\t' :: 't' :: 'e' :: 'x' :: 't' :: ' ' :: '=' :: ' ' :: '"' :: (s ++ ['"'])

/-- The top-level `size = 2` header line. -/
def c3SizeLine : List Char := ['s', 'i', 'z', 'e', ' ', '=', ' ', '2']

/-- A state with the tier header left (after some `intervals: size` line). -/
def flagOffState : PyState := { initState with tier_header := false }

/-- A minimal well-formed TextGrid text: one tier `phones` with one
interval `[0.0, 1.0] "sil"`. -/
def c1Input : String :=
  "File type = \"ooTextFile\"\nObject class = \"TextGrid\"\nxmin = 0.0\nxmax = 1.0\ntiers? <exists>\nsize = 1\nitem []:\n\titem [1]:\n\t\tclass = \"IntervalTier\"\n\t\tname = \"phones\"\n\t\txmin = 0.0\n\t\txmax = 1.0\n\t\tintervals: size = 1\n\t\t\tintervals [1]:\n\t\t\t\txmin = 0.0\n\t\t\t\txmax = 1.0\n\t\t\t\ttext = \"sil\"\n"

/-- The document of spec section 8 item 5: rows
`[("phones",0.0,0.5,"sil"), ("phones",0.5,1.0,"k"), ("words",0.0,1.0,"cat")]`. -/
def c5Doc : PyState :=
  { file_type := some "ooTextFile", object_class := some "TextGrid",
    xmin := some (PyFloat.make 0 0), xmax := some (PyFloat.make 1 0),
    tiers := some "exists", n_tiers := some 2,
    content := { tier := [some "phones", some "phones", some "words"],
                 start := [PyFloat.make 0 0, PyFloat.make 5 1, PyFloat.make 0 0],
                 stop := [PyFloat.make 5 1, PyFloat.make 1 0, PyFloat.make 1 0],
                 annot := ["sil", "k", "cat"] },
    tier_header := false, tier_name := some "words" }

/-- A document with columns of UNEQUAL lengths: tier/stop/annot have two
entries but start has only one. -/
def c9Doc : PyState :=
  { file_type := some "ooTextFile", object_class := some "TextGrid",
    xmin := some (PyFloat.make 0 0), xmax := some (PyFloat.make 2 0),
    tiers := some "exists", n_tiers := some 1,
    content := { tier := [some "phones", some "phones"],
                 start := [PyFloat.make 0 0], stop := [PyFloat.make 1 0, PyFloat.make 2 0],
                 annot := ["a", "b"] },
    tier_header := false, tier_name := some "phones" }

/-! ## Helper lemmas -/

lemma takeWhile_digits_append (ds l : List Char)
    (h : ∀ c ∈ ds, isDigitChar c = true)
    (hl : ∀ c cs2, l = c :: cs2 → isDigitChar c = false) :
    (ds ++ l).takeWhile isDigitChar = ds ∧ (ds ++ l).dropWhile isDigitChar = l := by
  induction ds with
  | nil =>
    cases l with
    | nil => simp
    | cons c cs2 =>
      have hc := hl c cs2 rfl
      simp [List.takeWhile_cons, List.dropWhile_cons, hc]
  | cons c ds2 ih =>
    have hc : isDigitChar c = true := h c (by simp)
    have ihh := ih (fun x hx => h x (by simp [hx]))
    simp [List.takeWhile_cons, List.dropWhile_cons, hc, ihh.1, ihh.2]

lemma captureNat_append (ds l : List Char)
    (h : ∀ c ∈ ds, isDigitChar c = true)
    (hl : ∀ c cs2, l = c :: cs2 → isDigitChar c = false)
    (hne : ds ≠ []) :
    captureNat (ds ++ l) = some (digitsToNat ds, l) := by
  obtain ⟨h1, h2⟩ := takeWhile_digits_append ds l h hl
  have hie : ds.isEmpty = false := by
    cases ds with
    | nil => exact absurd rfl hne
    | cons a l2 => rfl
  simp [captureNat, h1, h2, hie]

lemma captureNat_digits (ds : List Char)
    (h : ∀ c ∈ ds, isDigitChar c = true) (hne : ds ≠ []) :
    captureNat ds = some (digitsToNat ds, []) := by
  have := captureNat_append ds [] h (fun c cs2 hcc => absurd hcc (by simp)) hne
  rwa [List.append_nil] at this

lemma pyFloatOfChars_digits (ds : List Char)
    (h : ∀ c ∈ ds, isDigitChar c = true) (hne : ds ≠ []) :
    pyFloatOfChars ds = some (PyFloat.make (digitsToNat ds) 0) := by
  obtain ⟨h1, h2⟩ := takeWhile_digits_append ds [] h (fun c cs2 hcc => absurd hcc (by simp))
  rw [List.append_nil] at h1 h2
  have hie : ds.isEmpty = false := by
    cases ds with
    | nil => exact absurd rfl hne
    | cons a l2 => rfl
  simp [pyFloatOfChars, h1, h2, hie]

lemma captureFloatLoose_digits (ds : List Char)
    (h : ∀ c ∈ ds, isDigitChar c = true) :
    captureFloatLoose ds = ds := by
  obtain ⟨h1, h2⟩ := takeWhile_digits_append ds [] h (fun c cs2 hcc => absurd hcc (by simp))
  rw [List.append_nil] at h1 h2
  simp [captureFloatLoose, h1, h2]

lemma matchItem_itemLine (ds : List Char)
    (hne : ds ≠ []) (h : ∀ c ∈ ds, isDigitChar c = true) :
    matchItem (itemLine ds) = some (digitsToNat ds) := by
  have h0 : matchItem (itemLine ds) =
      (captureNat (ds ++ [']'])).bind fun nr =>
        match nr.2 with
        | ']' :: _ => some nr.1
        | [] => none
        | _ :: _ => none := rfl
  rw [h0, captureNat_append ds [']'] h
    (by intro c cs2 hcc; injection hcc with h1 h2; subst h1; decide) hne]
  rfl

lemma matchIntervalsSize_line (ds : List Char)
    (hne : ds ≠ []) (h : ∀ c ∈ ds, isDigitChar c = true) :
    matchIntervalsSize (intervalsSizeLine ds) = some (digitsToNat ds) := by
  have h0 : matchIntervalsSize (intervalsSizeLine ds) =
      (captureNat ds).map Prod.fst := rfl
  rw [h0, captureNat_digits ds h hne]
  rfl

lemma captureToLast_append_quote (s : List Char) :
    captureToLast '"' (s ++ ['"']) = some (String.mk s) := by
  simp [captureToLast, List.dropWhile_cons]

/-! ### What one loop iteration does on the constructed lines -/

lemma stepItem_itemLine_none (st : PyState) (ds : List Char)
    (hne : ds ≠ []) (hdig : ∀ c ∈ ds, isDigitChar c = true)
    (hnt : st.n_tiers = none) :
    stepItem st (itemLine ds) = .error .typeErrorCmpNone := by
  unfold stepItem
  rw [matchItem_itemLine ds hne hdig, hnt]

lemma stepItem_itemLine_some (st : PyState) (ds : List Char) (tc : Nat)
    (hne : ds ≠ []) (hdig : ∀ c ∈ ds, isDigitChar c = true)
    (hnt : st.n_tiers = some tc) :
    stepItem st (itemLine ds) =
      if (digitsToNat ds : Int) - 1 ≥ (tc : Int) then
        .error (.structureError tc ((digitsToNat ds : Int) - 1))
      else .ok { st with tier_header := true } := by
  unfold stepItem
  rw [matchItem_itemLine ds hne hdig, hnt]

lemma processLine_itemLine_noneTC (st : PyState) (ds : List Char)
    (hnt : st.n_tiers = none)
    (hne : ds ≠ []) (hdig : ∀ c ∈ ds, isDigitChar c = true) :
    processLine st (itemLine ds) = .error .typeErrorCmpNone := by
  have hh : stepHeader st (itemLine ds) = st := rfl
  have key := stepItem_itemLine_none st ds hne hdig hnt
  unfold processLine
  rw [hh, key]

lemma processLine_itemLine_someTC (st : PyState) (ds : List Char) (tc : Nat)
    (hnt : st.n_tiers = some tc)
    (hne : ds ≠ []) (hdig : ∀ c ∈ ds, isDigitChar c = true) :
    processLine st (itemLine ds) =
      if (digitsToNat ds : Int) - 1 ≥ (tc : Int) then
        .error (.structureError tc ((digitsToNat ds : Int) - 1))
      else .ok { st with tier_header := true } := by
  have hh : stepHeader st (itemLine ds) = st := rfl
  have key := stepItem_itemLine_some st ds tc hne hdig hnt
  unfold processLine
  rw [hh, key]
  by_cases hge : (digitsToNat ds : Int) - 1 ≥ (tc : Int)
  · rw [if_pos hge]
  · rw [if_neg hge]
    rfl

lemma processLine_intervalsSizeLine (st : PyState) (ds : List Char)
    (hne : ds ≠ []) (hdig : ∀ c ∈ ds, isDigitChar c = true) :
    processLine st (intervalsSizeLine ds) =
      .ok { st with
        content := { st.content with
          tier := st.content.tier ++ List.replicate (digitsToNat ds) st.tier_name }
        tier_header := false } := by
  have hh : stepHeader st (intervalsSizeLine ds) = st := rfl
  have hitem : stepItem st (intervalsSizeLine ds) = .ok st := rfl
  have hname : stepName st (intervalsSizeLine ds) = st := rfl
  have hms : stepIntervalsSize st (intervalsSizeLine ds) =
      { st with
        content := { st.content with
          tier := st.content.tier ++ List.replicate (digitsToNat ds) st.tier_name }
        tier_header := false } := by
    unfold stepIntervalsSize
    rw [matchIntervalsSize_line ds hne hdig]
  have hxmin : ∀ s : PyState, stepIntXmin s (intervalsSizeLine ds) = .ok s := fun s => rfl
  have hxmax : ∀ s : PyState, stepIntXmax s (intervalsSizeLine ds) = .ok s := fun s => rfl
  have htxt : ∀ s : PyState, stepText s (intervalsSizeLine ds) = s := fun s => rfl
  unfold processLine
  simp only [hh, hitem, hname, hms, hxmin, hxmax, htxt]

lemma processLine_intXminLine_skip (st : PyState) (r : List Char)
    (hflag : st.tier_header = true) :
    processLine st (intXminLine r) = .ok st := by
  have hh : stepHeader st (intXminLine r) = st := rfl
  have hitem : stepItem st (intXminLine r) = .ok st := rfl
  have hname : stepName st (intXminLine r) = st := rfl
  have hisz : stepIntervalsSize st (intXminLine r) = st := rfl
  have hxmin : stepIntXmin st (intXminLine r) = .ok st := by
    have h0 : stepIntXmin st (intXminLine r) =
        if st.tier_header then .ok st
        else
          match pyFloatOfChars (captureFloatLoose r) with
          | none => .error .floatValueError
          | some q =>
            .ok { st with content := { st.content with start := st.content.start ++ [q] } } := rfl
    rw [h0, hflag]
    rfl
  have hxmax : stepIntXmax st (intXminLine r) = .ok st := rfl
  have htxt : stepText st (intXminLine r) = st := rfl
  unfold processLine
  simp only [hh, hitem, hname, hisz, hxmin, hxmax, htxt]

lemma processLine_intXmaxLine_skip (st : PyState) (r : List Char)
    (hflag : st.tier_header = true) :
    processLine st (intXmaxLine r) = .ok st := by
  have hh : stepHeader st (intXmaxLine r) = st := rfl
  have hitem : stepItem st (intXmaxLine r) = .ok st := rfl
  have hname : stepName st (intXmaxLine r) = st := rfl
  have hisz : stepIntervalsSize st (intXmaxLine r) = st := rfl
  have hxmin : stepIntXmin st (intXmaxLine r) = .ok st := rfl
  have hxmax : stepIntXmax st (intXmaxLine r) = .ok st := by
    have h0 : stepIntXmax st (intXmaxLine r) =
        if st.tier_header then .ok st
        else
          match pyFloatOfChars (captureFloatLoose r) with
          | none => .error .floatValueError
          | some q =>
            .ok { st with content := { st.content with stop := st.content.stop ++ [q] } } := rfl
    rw [h0, hflag]
    rfl
  have htxt : stepText st (intXmaxLine r) = st := rfl
  unfold processLine
  simp only [hh, hitem, hname, hisz, hxmin, hxmax, htxt]

lemma processLine_textLine_skip (st : PyState) (s : List Char)
    (hflag : st.tier_header = true) :
    processLine st (textLine s) = .ok st := by
  have hh : stepHeader st (textLine s) = st := rfl
  have hitem : stepItem st (textLine s) = .ok st := rfl
  have hname : stepName st (textLine s) = st := rfl
  have hisz : stepIntervalsSize st (textLine s) = st := rfl
  have hxmin : stepIntXmin st (textLine s) = .ok st := rfl
  have hxmax : stepIntXmax st (textLine s) = .ok st := rfl
  have htxt : stepText st (textLine s) = st := by
    have h0 : matchText (textLine s) = captureToLast '"' (s ++ ['"']) := rfl
    unfold stepText
    rw [h0, captureToLast_append_quote s, hflag]
    rfl
  unfold processLine
  simp only [hh, hitem, hname, hisz, hxmin, hxmax, htxt]

lemma processLine_intXminLine_append (st : PyState) (ds : List Char)
    (hflag : st.tier_header = false)
    (hne : ds ≠ []) (hdig : ∀ c ∈ ds, isDigitChar c = true) :
    processLine st (intXminLine ds) =
      .ok { st with content := { st.content with start := st.content.start ++ [PyFloat.make (digitsToNat ds) 0] } } := by
  have hh : stepHeader st (intXminLine ds) = st := rfl
  have hitem : stepItem st (intXminLine ds) = .ok st := rfl
  have hname : stepName st (intXminLine ds) = st := rfl
  have hisz : stepIntervalsSize st (intXminLine ds) = st := rfl
  have hxmin : stepIntXmin st (intXminLine ds) =
      .ok { st with content := { st.content with start := st.content.start ++ [PyFloat.make (digitsToNat ds) 0] } } := by
    have h0 : stepIntXmin st (intXminLine ds) =
        if st.tier_header then .ok st
        else
          match pyFloatOfChars (captureFloatLoose ds) with
          | none => .error .floatValueError
          | some q =>
            .ok { st with content := { st.content with start := st.content.start ++ [q] } } := rfl
    rw [h0, hflag, captureFloatLoose_digits ds hdig, pyFloatOfChars_digits ds hdig hne]
    rfl
  have hxmax : ∀ s : PyState, stepIntXmax s (intXminLine ds) = .ok s := fun s => rfl
  have htxt : ∀ s : PyState, stepText s (intXminLine ds) = s := fun s => rfl
  unfold processLine
  simp only [hh, hitem, hname, hisz, hxmin, hxmax, htxt]

lemma processLine_intXmaxLine_append (st : PyState) (ds : List Char)
    (hflag : st.tier_header = false)
    (hne : ds ≠ []) (hdig : ∀ c ∈ ds, isDigitChar c = true) :
    processLine st (intXmaxLine ds) =
      .ok { st with content := { st.content with stop := st.content.stop ++ [PyFloat.make (digitsToNat ds) 0] } } := by
  have hh : stepHeader st (intXmaxLine ds) = st := rfl
  have hitem : stepItem st (intXmaxLine ds) = .ok st := rfl
  have hname : stepName st (intXmaxLine ds) = st := rfl
  have hisz : stepIntervalsSize st (intXmaxLine ds) = st := rfl
  have hxmin : stepIntXmin st (intXmaxLine ds) = .ok st := rfl
  have hxmax : stepIntXmax st (intXmaxLine ds) =
      .ok { st with content := { st.content with stop := st.content.stop ++ [PyFloat.make (digitsToNat ds) 0] } } := by
    have h0 : stepIntXmax st (intXmaxLine ds) =
        if st.tier_header then .ok st
        else
          match pyFloatOfChars (captureFloatLoose ds) with
          | none => .error .floatValueError
          | some q =>
            .ok { st with content := { st.content with stop := st.content.stop ++ [q] } } := rfl
    rw [h0, hflag, captureFloatLoose_digits ds hdig, pyFloatOfChars_digits ds hdig hne]
    rfl
  have htxt : ∀ s : PyState, stepText s (intXmaxLine ds) = s := fun s => rfl
  unfold processLine
  simp only [hh, hitem, hname, hisz, hxmin, hxmax, htxt]

lemma processLine_textLine_append (st : PyState) (s : List Char)
    (hflag : st.tier_header = false) :
    processLine st (textLine s) =
      .ok { st with content := { st.content with annot := st.content.annot ++ [String.mk s] } } := by
  have hh : stepHeader st (textLine s) = st := rfl
  have hitem : stepItem st (textLine s) = .ok st := rfl
  have hname : stepName st (textLine s) = st := rfl
  have hisz : stepIntervalsSize st (textLine s) = st := rfl
  have hxmin : stepIntXmin st (textLine s) = .ok st := rfl
  have hxmax : stepIntXmax st (textLine s) = .ok st := rfl
  have htxt : stepText st (textLine s) =
      { st with content := { st.content with annot := st.content.annot ++ [String.mk s] } } := by
    have h0 : matchText (textLine s) = captureToLast '"' (s ++ ['"']) := rfl
    unfold stepText
    rw [h0, captureToLast_append_quote s, hflag]
    rfl
  unfold processLine
  simp only [hh, hitem, hname, hisz, hxmin, hxmax, htxt]

/-! ### Folding the loop -/

lemma parseLinesFrom_append (st : PyState) (l1 l2 : List (List Char)) :
    parseLinesFrom st (l1 ++ l2) =
      (parseLinesFrom st l1).bind fun s => parseLinesFrom s l2 := by
  induction l1 generalizing st with
  | nil => rfl
  | cons a l1' ih =>
    show parseLinesFrom st (a :: (l1' ++ l2)) = _
    cases hpa : processLine st a with
    | error e =>
      have h1 : parseLinesFrom st (a :: (l1' ++ l2)) = .error e := by
        show (processLine st a).bind (fun s => parseLinesFrom s (l1' ++ l2)) = _
        rw [hpa]
        rfl
      have h2 : parseLinesFrom st (a :: l1') = .error e := by
        show (processLine st a).bind (fun s => parseLinesFrom s l1') = _
        rw [hpa]
        rfl
      rw [h1, h2]
      rfl
    | ok st2 =>
      have h1 : parseLinesFrom st (a :: (l1' ++ l2)) = parseLinesFrom st2 (l1' ++ l2) := by
        show (processLine st a).bind (fun s => parseLinesFrom s (l1' ++ l2)) = _
        rw [hpa]
        rfl
      have h2 : parseLinesFrom st (a :: l1') = parseLinesFrom st2 l1' := by
        show (processLine st a).bind (fun s => parseLinesFrom s l1') = _
        rw [hpa]
        rfl
      rw [h1, h2, ih st2]

lemma parseLinesFrom_cons (st : PyState) (a : List Char) (post : List (List Char)) :
    parseLinesFrom st (a :: post) =
      (processLine st a).bind fun s => parseLinesFrom s post := rfl

/-! ### The extension returned by `splitext` is empty or dot-headed -/

lemma splitext_ext_shape (path : String) :
    (splitext path).2 = "" ∨ ∃ l, (splitext path).2 = String.mk ('.' :: l) := by
  simp only [splitext]
  split
  · exact Or.inl rfl
  · exact Or.inr ⟨_, rfl⟩

lemma mk_dot_ne (l : List Char) (t : String) (ht : t.data.head? ≠ some '.') :
    String.mk ('.' :: l) ≠ t := by
  intro h
  apply ht
  rw [← h]
  rfl

lemma ext_not_bare (path : String) :
    ¬((splitext path).2 = "textgrid" ∨ (splitext path).2 = "TextGrid") ∧
    ¬((splitext path).2 = "csv" ∨ (splitext path).2 = "CSV") := by
  rcases splitext_ext_shape path with h | ⟨l, h⟩ <;> rw [h]
  · exact ⟨by decide, by decide⟩
  · refine ⟨fun hc => ?_, fun hc => ?_⟩
    · rcases hc with hc | hc
      · exact mk_dot_ne l "textgrid" (by decide) hc
      · exact mk_dot_ne l "TextGrid" (by decide) hc
    · rcases hc with hc | hc
      · exact mk_dot_ne l "csv" (by decide) hc
      · exact mk_dot_ne l "CSV" (by decide) hc

lemma init_dispatch_eq (path : String) :
    init_dispatch path = .error (.unsupportedFormat (splitext path).2) := by
  have h := ext_not_bare path
  simp only [init_dispatch]
  rw [if_neg h.1, if_neg h.2]

lemma to_csv_eq (st : PyState) (path : String) :
    to_csv st path = .error (.unsupportedFormat (splitext path).2) := by
  have h := ext_not_bare path
  simp only [to_csv, to_csv_check]
  rw [if_neg h.1, if_neg h.2]
  rfl

lemma to_textgrid_eq (st : PyState) (path : String) :
    to_textgrid st path = .error (.unsupportedFormat (splitext path).2) := by
  have h := ext_not_bare path
  simp only [to_textgrid, to_textgrid_check]
  rw [if_neg h.1, if_neg h.2]
  rfl

/-! ### Serializer helpers -/

lemma zip4_length {α β γ δ : Type} :
    ∀ (as : List α) (bs : List β) (cs : List γ) (ds : List δ),
      (zip4 as bs cs ds).length =
        min (min as.length bs.length) (min cs.length ds.length) := by
  intro as
  induction as with
  | nil => intro bs cs ds; simp [zip4]
  | cons a as2 ih =>
    intro bs cs ds
    cases bs with
    | nil => simp [zip4]
    | cons b bs2 =>
      cases cs with
      | nil => simp [zip4]
      | cons c cs2 =>
        cases ds with
        | nil => simp [zip4]
        | cons d ds2 =>
          simp only [zip4, List.length_cons, ih]
          omega

lemma tier_size_eq_count (col : List (Option String)) (t : Option String) :
    tier_size col t = col.count t := by
  induction col with
  | nil => rfl
  | cons a l ih =>
    by_cases h : a = t
    · simp [tier_size, List.filter_cons, List.count_cons, h] at ih ⊢
      omega
    · simp [tier_size, List.filter_cons, List.count_cons, h] at ih ⊢
      exact ih

/-! ## The claims -/

/-- C1: the claim says TextGrid parse → serialize → re-parse preserves all
header fields and the rows.  On the minimal well-formed input `c1Input`
the rows and the other header fields survive, but the re-parsed `xmin`
and `xmax` are `None`: the serializer writes `xmin 0.0` (lines 190-191,
no ` = `), which the parser's `xmin\s=\s...` pattern does not match. -/
theorem roundtrip_drops_header_bounds :
    ((parse_textgrid c1Input).toOption.map fun d =>
        (d.file_type, d.object_class, d.xmin, d.xmax, d.tiers, d.n_tiers, d.content)) =
      some (some "ooTextFile", some "TextGrid",
        some (PyFloat.make 0 0), some (PyFloat.make 1 0), some "exists", some 1,
        ⟨[some "phones"], [PyFloat.make 0 0], [PyFloat.make 1 0], ["sil"]⟩) ∧
    (((parse_textgrid c1Input).toOption.bind fun d =>
        (parse_textgrid (to_textgrid_text d)).toOption).map fun d =>
        (d.file_type, d.object_class, d.xmin, d.xmax, d.tiers, d.n_tiers, d.content)) =
      some (some "ooTextFile", some "TextGrid", none, none, some "exists", some 1,
        ⟨[some "phones"], [PyFloat.make 0 0], [PyFloat.make 1 0], ["sil"]⟩) :=
  ⟨rfl, rfl⟩

/-- C2: the claim says `sample.textgrid` routes to the TextGrid parser and
`sample.csv` to the tabular importer.  In fact `os.path.splitext` returns
the extension WITH its dot and `__init__` compares it against the dotless
literals, so every path — including these — raises the unsupported-format
`ValueError`; only `sample.xml` behaves as claimed. -/
theorem load_dispatch_rejects_dotted_extensions :
    init_dispatch "sample.textgrid" = .error (.unsupportedFormat ".textgrid") ∧
    init_dispatch "sample.csv" = .error (.unsupportedFormat ".csv") ∧
    init_dispatch "sample.xml" = .error (.unsupportedFormat ".xml") ∧
    ∀ path : String, init_dispatch path = .error (.unsupportedFormat (splitext path).2) :=
  ⟨rfl, rfl, rfl, init_dispatch_eq⟩

/-- C3: whenever parsing reaches an `item [N]` line (digit string `ds`,
`N = digitsToNat ds`) with a declared tier count `tc` and `N - 1 ≥ tc`,
the whole parse stops with the StructureError of line 92. -/
theorem parse_structure_error_on_excess_tier_index
    (pre post : List (List Char)) (st : PyState) (tc : Nat) (ds : List Char)
    (hpre : parseLinesFrom initState pre = .ok st)
    (hnt : st.n_tiers = some tc)
    (hne : ds ≠ []) (hdig : ∀ c ∈ ds, isDigitChar c = true)
    (hge : (digitsToNat ds : Int) - 1 ≥ (tc : Int)) :
    parseLinesFrom initState (pre ++ itemLine ds :: post) =
      .error (.structureError tc ((digitsToNat ds : Int) - 1)) := by
  rw [parseLinesFrom_append, hpre]
  show parseLinesFrom st (itemLine ds :: post) = _
  rw [parseLinesFrom_cons, processLine_itemLine_someTC st ds tc hnt hne hdig, if_pos hge]
  rfl

/-- C3 witness: a header declaring `size = 2` followed by `item [3]`. -/
theorem parse_structure_error_on_excess_tier_index_witness :
    parseLinesFrom initState ([c3SizeLine] ++ itemLine ['3'] :: []) =
      .error (.structureError 2 2) :=
  parse_structure_error_on_excess_tier_index [c3SizeLine] []
    { initState with n_tiers := some 2 } 2 ['3'] rfl rfl (by decide) (by decide) (by decide)

/-- C4: the claim says saving to a path of the other format raises
MismatchedOperationError.  Because the compared extension keeps its dot
(see C2), both save checks fall through to the unsupported-format branch
for EVERY path; the mismatched-operation branches are unreachable. -/
theorem save_checks_raise_unsupported_not_mismatched :
    (∀ st : PyState, to_csv st "sample.textgrid" = .error (.unsupportedFormat ".textgrid")) ∧
    (∀ st : PyState, to_textgrid st "sample.csv" = .error (.unsupportedFormat ".csv")) ∧
    ∀ (st : PyState) (path : String),
      to_csv st path = .error (.unsupportedFormat (splitext path).2) ∧
      to_textgrid st path = .error (.unsupportedFormat (splitext path).2) :=
  ⟨fun _ => rfl, fun _ => rfl, fun st path => ⟨to_csv_eq st path, to_textgrid_eq st path⟩⟩

/-- C5: serializing the three-row document of the spec emits exactly two
tier blocks — `phones` with `intervals: size = 2` (interval indices 1, 2)
and `words` with `intervals: size = 1` (index restarting at 1) — and in
general the emitted `tier_size` counts matching labels over the ENTIRE
tier column (`List.count`), not just the contiguous run. -/
theorem serialize_groups_tiers_and_counts_globally :
    to_textgrid_text c5Doc =
      "File type = \"ooTextFile\"\nObject class = \"TextGrid\"\n\nxmin 0.0\nxmax 1.0\ntiers? <exists>\nsize = 2\nitem[]\n\titem [1]\n\t\tclass = \"IntervalTier\"\n\t\tname = \"phones\"\n\t\txmin = 0.0\n\t\txmax = 1.0\n\t\tintervals: size = 2\n\t\t\tintervals [1]:\n\t\t\t\txmin = 0.0\n\t\t\t\txmax = 0.5\n\t\t\t\ttext = \"sil\"\n\t\t\tintervals [2]:\n\t\t\t\txmin = 0.5\n\t\t\t\txmax = 1.0\n\t\t\t\ttext = \"k\"\n\titem [2]\n\t\tclass = \"IntervalTier\"\n\t\tname = \"words\"\n\t\txmin = 0.0\n\t\txmax = 1.0\n\t\tintervals: size = 1\n\t\t\tintervals [1]:\n\t\t\t\txmin = 0.0\n\t\t\t\txmax = 1.0\n\t\t\t\ttext = \"cat\"\n" ∧
    ∀ (col : List (Option String)) (t : Option String), tier_size col t = col.count t :=
  ⟨rfl, tier_size_eq_count⟩

/-- C6 counterexample: the claim says BOTH the top-level and the
interval-level `xmin`/`xmax` patterns accept an integer-looking value such
as `xmin = 0`.  The top-level pattern is `xmin\s=\s(\d+\.\d+)` and does
NOT match `xmin = 0`; parsing that single line leaves the document's
`xmin` unset. -/
theorem top_level_xmin_rejects_integer :
    matchTopXmin ['x', 'm', 'i', 'n', ' ', '=', ' ', '0'] = none ∧
    parseLines [['x', 'm', 'i', 'n', ' ', '=', ' ', '0']] = .ok initState :=
  ⟨rfl, rfl⟩

/-- C6 amended: only the INTERVAL-level `xmin`/`xmax` patterns
(`\d*\.*\d*`) accept a value with no fractional part such as `xmin = 0`,
capturing it as the float 0.0; the top-level patterns (`\d+\.\d+`) require
an explicit fractional part and reject `xmin = 0` while accepting
`xmin = 0.0`. -/
theorem integer_numeric_lines_interval_level_only :
    matchIntXmin (intXminLine ['0']) = some ['0'] ∧
    matchIntXmax (intXmaxLine ['0']) = some ['0'] ∧
    pyFloatOfChars ['0'] = some (PyFloat.make 0 0) ∧
    parseLines [intervalsSizeLine ['1'], intXminLine ['0']] =
      .ok { initState with
        content := { initState.content with tier := [none], start := [PyFloat.make 0 0] }
        tier_header := false } ∧
    matchTopXmin ['x', 'm', 'i', 'n', ' ', '=', ' ', '0'] = none ∧
    matchTopXmax ['x', 'm', 'a', 'x', ' ', '=', ' ', '0'] = none ∧
    matchTopXmin "xmin = 0.0".toList = some (PyFloat.make 0 0) :=
  ⟨rfl, rfl, rfl, rfl, rfl, rfl, rfl⟩

/-- C7: the claim says exporting to tabular form and re-importing yields
the same rows.  The round trip never completes: `to_csv` itself raises
the unsupported-format `ValueError` for any real `*.csv` path (dotted
extension vs dotless literals, see C2), and re-loading such a path fails
at dispatch the same way (and `_parse_csv` would build a `DataFrame`
from the PATH OBJECT, never reading the file). -/
theorem tabular_export_reimport_fails :
    (∀ st : PyState, to_csv st "sample.csv" = .error (.unsupportedFormat ".csv")) ∧
    init_dispatch "sample.csv" = .error (.unsupportedFormat ".csv") :=
  ⟨fun _ => rfl, rfl⟩

/-- C8: an `intervals: size = N` line appends exactly `N` copies of the
current tier name to the tier column and clears the tier-header flag;
interval `xmin`/`xmax`/`text` lines append to their columns ONLY while
the flag is false — while it is true they leave the state unchanged. -/
theorem intervals_size_reserves_rows_and_header_flag_guards :
    (∀ (st : PyState) (ds : List Char), ds ≠ [] → (∀ c ∈ ds, isDigitChar c = true) →
      processLine st (intervalsSizeLine ds) =
        .ok { st with
          content := { st.content with
            tier := st.content.tier ++ List.replicate (digitsToNat ds) st.tier_name }
          tier_header := false }) ∧
    (∀ (st : PyState) (r : List Char), st.tier_header = true →
      processLine st (intXminLine r) = .ok st ∧ processLine st (intXmaxLine r) = .ok st) ∧
    (∀ (st : PyState) (s : List Char), st.tier_header = true →
      processLine st (textLine s) = .ok st) ∧
    (∀ (st : PyState) (ds : List Char), st.tier_header = false → ds ≠ [] →
      (∀ c ∈ ds, isDigitChar c = true) →
      processLine st (intXminLine ds) =
        .ok { st with content := { st.content with
          start := st.content.start ++ [PyFloat.make (digitsToNat ds) 0] } } ∧
      processLine st (intXmaxLine ds) =
        .ok { st with content := { st.content with
          stop := st.content.stop ++ [PyFloat.make (digitsToNat ds) 0] } }) ∧
    (∀ (st : PyState) (s : List Char), st.tier_header = false →
      processLine st (textLine s) =
        .ok { st with content := { st.content with
          annot := st.content.annot ++ [String.mk s] } }) :=
  ⟨fun st ds hne hdig => processLine_intervalsSizeLine st ds hne hdig,
   fun st r hflag =>
     ⟨processLine_intXminLine_skip st r hflag, processLine_intXmaxLine_skip st r hflag⟩,
   fun st s hflag => processLine_textLine_skip st s hflag,
   fun st ds hflag hne hdig =>
     ⟨processLine_intXminLine_append st ds hflag hne hdig,
      processLine_intXmaxLine_append st ds hflag hne hdig⟩,
   fun st s hflag => processLine_textLine_append st s hflag⟩

/-- C8 witness: all five behaviours at concrete inputs. -/
theorem intervals_size_reserves_rows_and_header_flag_guards_witness :
    processLine initState (intervalsSizeLine ['2']) =
      .ok { initState with
        content := { initState.content with
          tier := initState.content.tier ++ List.replicate (digitsToNat ['2']) initState.tier_name }
        tier_header := false } ∧
    processLine initState (intXminLine ['5']) = .ok initState ∧
    processLine initState (intXmaxLine ['5']) = .ok initState ∧
    processLine initState (textLine ['s', 'i', 'l']) = .ok initState ∧
    processLine flagOffState (intXminLine ['5']) =
      .ok { flagOffState with content := { flagOffState.content with
        start := flagOffState.content.start ++ [PyFloat.make (digitsToNat ['5']) 0] } } ∧
    processLine flagOffState (intXmaxLine ['5']) =
      .ok { flagOffState with content := { flagOffState.content with
        stop := flagOffState.content.stop ++ [PyFloat.make (digitsToNat ['5']) 0] } } ∧
    processLine flagOffState (textLine ['c', 'a', 't']) =
      .ok { flagOffState with content := { flagOffState.content with
        annot := flagOffState.content.annot ++ [String.mk ['c', 'a', 't']] } } := by
  refine ⟨?_, ?_, ?_, ?_, ?_, ?_, ?_⟩
  · exact intervals_size_reserves_rows_and_header_flag_guards.1 initState ['2']
      (by decide) (by decide)
  · exact (intervals_size_reserves_rows_and_header_flag_guards.2.1 initState ['5'] rfl).1
  · exact (intervals_size_reserves_rows_and_header_flag_guards.2.1 initState ['5'] rfl).2
  · exact intervals_size_reserves_rows_and_header_flag_guards.2.2.1 initState
      ['s', 'i', 'l'] rfl
  · exact (intervals_size_reserves_rows_and_header_flag_guards.2.2.2.1 flagOffState ['5']
      rfl (by decide) (by decide)).1
  · exact (intervals_size_reserves_rows_and_header_flag_guards.2.2.2.1 flagOffState ['5']
      rfl (by decide) (by decide)).2
  · exact intervals_size_reserves_rows_and_header_flag_guards.2.2.2.2 flagOffState
      ['c', 'a', 't'] rfl

/-- C9: the serializer zips the four content columns, so it emits exactly
`min` of the four lengths interval blocks and never raises; on `c9Doc`
(tier/stop/annot of length 2, start of length 1) it silently emits a
single interval block — while still announcing `intervals: size = 2`
because `tier_size` counts the full tier column. -/
theorem serializer_truncates_to_shortest_column :
    (∀ (t : List (Option String)) (s e : List PyFloat) (a : List String),
      (zip4 t s e a).length = min (min t.length s.length) (min e.length a.length)) ∧
    to_textgrid_text c9Doc =
      "File type = \"ooTextFile\"\nObject class = \"TextGrid\"\n\nxmin 0.0\nxmax 2.0\ntiers? <exists>\nsize = 1\nitem[]\n\titem [1]\n\t\tclass = \"IntervalTier\"\n\t\tname = \"phones\"\n\t\txmin = 0.0\n\t\txmax = 2.0\n\t\tintervals: size = 2\n\t\t\tintervals [1]:\n\t\t\t\txmin = 0.0\n\t\t\t\txmax = 1.0\n\t\t\t\ttext = \"a\"\n" :=
  ⟨fun t s e a => zip4_length t s e a, rfl⟩

/-- C10: an indented `item [N]` line reached while `self.n_tiers` is still
`None` makes `tier_idx >= self.n_tiers` raise an unhandled `TypeError`
(int-vs-None comparison), not the StructureError or any other named
format error. -/
theorem item_before_size_raises_type_error
    (pre post : List (List Char)) (st : PyState) (ds : List Char)
    (hpre : parseLinesFrom initState pre = .ok st)
    (hnt : st.n_tiers = none)
    (hne : ds ≠ []) (hdig : ∀ c ∈ ds, isDigitChar c = true) :
    parseLinesFrom initState (pre ++ itemLine ds :: post) = .error .typeErrorCmpNone := by
  rw [parseLinesFrom_append, hpre]
  show parseLinesFrom st (itemLine ds :: post) = _
  rw [parseLinesFrom_cons, processLine_itemLine_noneTC st ds hnt hne hdig]
  rfl

/-- C10 witness: an input whose first line is `\titem [1]`. -/
theorem item_before_size_raises_type_error_witness :
    parseLinesFrom initState ([] ++ itemLine ['1'] :: []) = .error .typeErrorCmpNone :=
  item_before_size_raises_type_error [] [] initState ['1'] rfl rfl (by decide) (by decide)

end TextGridTools
